import Mathlib

/-!
Verification of the codex-cli-mcp server (`index.js`) against its
natural-language specification.

The JavaScript source is shallowly embedded: JS strings become `String`,
JS `undefined`-able values become `Option`, JS objects used as string-keyed
maps become insertion-ordered association lists (`objSet` / `objGet` mirror
JS property assignment and access), and JS truthiness on strings is made
explicit (`jsOr`, `jsTruthyOpt`, ...).  Filesystem state is a map from
absolute path to file content; child processes are recorded as the list of
`spawn` invocations together with a parameter describing the child's
behaviour.
-/

/-- JS truthiness for a string value: `""` is falsy, all else truthy. -/
def jsTruthy (s : String) : Bool := s ≠ ""

/-- JS `a || b` for two strings. -/
def jsOr (a b : String) : String := if a ≠ "" then a else b

/-- JS truthiness for a possibly-`undefined` string (`none` = `undefined`). -/
def jsTruthyOpt (a : Option String) : Bool :=
  match a with
  | none => false
  | some s => s ≠ ""

/-- JS `a || b` where `a` is a possibly-`undefined`/empty string and `b` a string. -/
def jsOrOpt (a : Option String) (b : String) : String :=
  match a with
  | none => b
  | some s => if s = "" then b else s

/-- JS `a || b` where both sides are nullable strings (`none` = `null`/`undefined`);
the right side is returned verbatim when the left is falsy. -/
def jsOrField (a b : Option String) : Option String :=
  match a with
  | none => b
  | some s => if s = "" then b else some s

/-- JS template interpolation of a possibly-`undefined` string:
`undefined` renders as the text "undefined". -/
def jsStr (o : Option String) : String := o.getD "undefined"

/-- Whitespace as recognised by JS `String.prototype.trim` (the subset
relevant to this code base). -/
def isJsWs (c : Char) : Bool := c = ' ' || c = '\n' || c = '\t' || c = '\r'

/-- `trim` on the underlying character list. -/
def jsTrimList (l : List Char) : List Char :=
  ((l.dropWhile isJsWs).reverse.dropWhile isJsWs).reverse

/-- JS `String.prototype.trim`. -/
def jsTrim (s : String) : String := ⟨jsTrimList s.data⟩

/-- `pat` occurs as a contiguous substring of `s`. -/
abbrev StrContains (s pat : String) : Prop := pat.data <:+: s.data

/-- JS object property assignment on an insertion-ordered association list:
an existing key keeps its position and gets the new value, a new key is
appended at the end (JS object iteration order). -/
def objSet {β : Type} : List (String × β) → String → β → List (String × β)
  | [], k, v => [(k, v)]
  | (k', v') :: rest, k, v =>
    if k' = k then (k, v) :: rest else (k', v') :: objSet rest k v

/-- JS object property access (`undefined` = `none`). -/
def objGet {β : Type} : List (String × β) → String → Option β
  | [], _ => none
  | (k', v') :: rest, k => if k' = k then some v' else objGet rest k

/-- A filesystem is a map from absolute path to file content. -/
abbrev FS : Type := List (String × String)

/-- `slice(0, n)` on a string. -/
def strTake (s : String) (n : Nat) : String := ⟨s.data.take n⟩

/-- Auxiliary for `splitOnChar`: split the remaining characters at `c`,
with `acc` the (reversed) current field. -/
def splitOnCharAux (c : Char) : List Char → List Char → List String
  | [], acc => [⟨acc.reverse⟩]
  | x :: xs, acc =>
    if x = c then ⟨acc.reverse⟩ :: splitOnCharAux c xs []
    else splitOnCharAux c xs (x :: acc)

/-- JS `String.prototype.split` with a single-character separator (the only
form this code base uses: `'|'`, `'\n'`, `'/'`). -/
def splitOnChar (c : Char) (s : String) : List String := splitOnCharAux c s.data []

/-- JS `String.prototype.startsWith` (a raw string-prefix test). -/
def jsStartsWith (s pre : String) : Bool := pre.data.isPrefixOf s.data

/-- `trimOutput(str, limit)` from index.js:130-133: empty/falsy input gives `""`;
output longer than `limit` is replaced by a truncation marker followed by the
last `limit` characters (`str.slice(-limit)`); otherwise returned unchanged. -/
def trimOutput (str : String) (limit : Nat) : String :=
  if str = "" then ""
  else if limit < str.length then
    "...[truncated]...\n" ++ ⟨str.data.drop (str.length - limit)⟩
  else str

/-- `PROFILE_ALIASES` from index.js:46-54, as key/value entries
(for `Object.entries`). -/
def PROFILE_ALIASES : List (String × String) :=
  [("default", "default"), ("fast", "oss20b"), ("heavy", "oss120b"),
   ("reasoning", "deepseek"), ("coder", "qwen-coder"), ("kimi", "security"),
   ("security", "security")]

/-- JS property read `PROFILE_ALIASES[id]` on the literal alias object. -/
def aliasGet (s : String) : Option String :=
  if s = "default" then some "default"
  else if s = "fast" then some "oss20b"
  else if s = "heavy" then some "oss120b"
  else if s = "reasoning" then some "deepseek"
  else if s = "coder" then some "qwen-coder"
  else if s = "kimi" then some "security"
  else if s = "security" then some "security"
  else none

/-- `normalizeProfileId(id)` from index.js:135-139: falsy ids give `null`;
a truthy alias value is returned; otherwise the id itself. -/
def normalizeProfileId (id : Option String) : Option String :=
  match id with
  | none => none
  | some s =>
    if s = "" then none
    else
      match aliasGet s with
      | some v => if v = "" then some s else some v
      | none => some s

/-- A row of the `model` table (or of the fallback list); `name` and
`base_model_id` may be `undefined` after a short `split('|')`. -/
structure ModelRow where
  id : String
  name : Option String
  base_model_id : Option String
deriving DecidableEq, Repr

/-- `FALLBACK_MODELS` from index.js:36-43. -/
def FALLBACK_MODELS : List ModelRow :=
  [⟨"default", some "Codex Max (default)", some "codex-max"⟩,
   ⟨"oss20b", some "OSS 20B (fast operator)", some "gpt-oss:20b-cloud"⟩,
   ⟨"oss120b", some "OSS 120B (heavy operator)", some "gpt-oss:120b-cloud"⟩,
   ⟨"deepseek", some "Deepseek v3.1 (reasoning)", some "deepseek-v3.1:671b-cloud"⟩,
   ⟨"qwen-coder", some "Qwen3 Coder 480B", some "qwen3-coder:480b-cloud"⟩,
   ⟨"security", some "Kimi K2 Thinking", some "kimi-k2-thinking:cloud"⟩]

/-- `parseModelRows(raw)` from index.js:141-150. -/
def parseModelRows (raw : String) : List ModelRow :=
  (((splitOnChar '\n' raw).map jsTrim).filter (fun l => l ≠ "")).map (fun line =>
    let parts := splitOnChar '|' line
    { id := parts.headD "", name := parts[1]?, base_model_id := parts[2]? })

/-- A profile entry as built by `buildProfileMap`. -/
structure ProfileInfo where
  id : String
  displayId : String
  name : String
  baseModel : Option String
deriving DecidableEq, Repr

/-- The profile map the static fallback list yields after alias
normalization (the "default" entry is already part of the fallback list, so
the synthesized default row adds nothing). -/
def fallbackProfileEntries : List (String × ProfileInfo) :=
  [("default", ⟨"default", "default", "Codex Max (default)", some "codex-max"⟩),
   ("oss20b",
    ⟨"oss20b", "oss20b", "OSS 20B (fast operator)", some "gpt-oss:20b-cloud"⟩),
   ("oss120b",
    ⟨"oss120b", "oss120b", "OSS 120B (heavy operator)",
      some "gpt-oss:120b-cloud"⟩),
   ("deepseek",
    ⟨"deepseek", "deepseek", "Deepseek v3.1 (reasoning)",
      some "deepseek-v3.1:671b-cloud"⟩),
   ("qwen-coder",
    ⟨"qwen-coder", "qwen-coder", "Qwen3 Coder 480B",
      some "qwen3-coder:480b-cloud"⟩),
   ("security",
    ⟨"security", "security", "Kimi K2 Thinking",
      some "kimi-k2-thinking:cloud"⟩)]

/-- A single `spawn(cmd, args, ...)` invocation. -/
structure SpawnSpec where
  cmd : String
  args : List String
deriving DecidableEq, Repr

/-- Fixed configuration of the process, modelled as constants.
`CODEX_PATH`, `OPENWEBUI_DB` and the directory layout are environment- or
`__dirname`-derived in the source; they are opaque fixed strings here. -/
def CODEX_PATH : String := "/opt/homebrew/bin/codex"

def OPENWEBUI_DB : String := "/home/user/openwebui-data/webui.db"

def MAIN_CODEX_HOME : String := "/srv/codex-mcp"

def SECURITY_CODEX_HOME : String := MAIN_CODEX_HOME ++ "/profiles/security"

def CONFIG_PATH : String := MAIN_CODEX_HOME ++ "/config.toml"

def SECURITY_CONFIG_PATH : String := SECURITY_CODEX_HOME ++ "/config.toml"

def WORKSPACE_ROOT : String := "/home/user/Desktop/MAIN WORKSPACE"

/-- The `spawn('sqlite3', [OPENWEBUI_DB, ...])` invocation made by
`readModelsFromDb` (index.js:155). -/
def sqliteSpawn : SpawnSpec :=
  ⟨"sqlite3", [OPENWEBUI_DB, "SELECT id, name, base_model_id FROM model;"]⟩

/-- How the sqlite3 child process behaves: it either closes with an exit code
(`none` = killed by signal) and captured output, or the spawn fails with an
error event. -/
inductive DbOutcome
  | closed (code : Option Int) (stdout stderr : String)
  | failed (msg : String)
deriving DecidableEq, Repr

/-- Result of `readModelsFromDb`. -/
structure DbResult where
  models : List ModelRow
  source : String
  stderr : String
deriving DecidableEq, Repr

/-- String rendering of a JS exit code (`null` renders as "null"). -/
def jsCodeStr (code : Option Int) : String :=
  match code with
  | none => "null"
  | some n => toString n

/-- `readModelsFromDb()` from index.js:152-177, as a function of the child
process outcome: on exit code 0 with non-blank stdout the rows are parsed and
the source is "openwebui"; otherwise the row list is empty and the source is
"error" (the fallback provenance). -/
def readModelsFromDb (o : DbOutcome) : DbResult :=
  match o with
  | .closed code stdout stderr =>
    if code = some 0 ∧ jsTrim stdout ≠ "" then
      { models := parseModelRows stdout, source := "openwebui",
        stderr := trimOutput stderr 2000 }
    else
      { models := [], source := "error",
        stderr := trimOutput (jsOr stderr ("sqlite exit code " ++ jsCodeStr code)) 2000 }
  | .failed msg => { models := [], source := "error", stderr := msg }

/-- One `forEach` step of `buildProfileMap` (index.js:181-190): skip falsy
resolved ids; rows whose original id is "kimi" or whose resolved id is
"security" populate the single reserved security entry; all other rows
populate the map keyed by resolved id. -/
def buildStep (map : List (String × ProfileInfo)) (row : ModelRow) :
    List (String × ProfileInfo) :=
  match normalizeProfileId (some row.id) with
  | none => map
  | some id =>
    if row.id = "kimi" ∨ id = "security" then
      objSet map "security"
        { id := "security", displayId := "security",
          name := jsOrOpt row.name "Security", baseModel := row.base_model_id }
    else
      objSet map id
        { id := id, displayId := id, name := jsOrOpt row.name id,
          baseModel := row.base_model_id }

/-- `buildProfileMap(modelRows)` from index.js:179-200, returning the map and
the selected default profile. -/
def buildProfileMap (modelRows : List ModelRow) :
    List (String × ProfileInfo) × Option String :=
  let map := modelRows.foldl buildStep []
  let map :=
    if (objGet map "security").isSome = false ∧
        modelRows.any (fun r => r.base_model_id = some "kimi-k2-thinking:cloud") then
      objSet map "security"
        { id := "security", displayId := "security", name := "Security",
          baseModel := some "kimi-k2-thinking:cloud" }
    else map
  let nonSecurityIds := (map.map Prod.fst).filter (fun k => k ≠ "security")
  let defaultProfile :=
    if (objGet map "default").isSome then some "default"
    else jsOrField nonSecurityIds.head? (jsOrField (map.map Prod.fst).head? none)
  (map, defaultProfile)

/-- `writeIfChanged(targetPath, content)` from index.js:202-211 on the
filesystem map: skip the write when the existing content is byte-identical,
otherwise write.  Returns the new filesystem and whether a write happened. -/
def writeIfChanged (fs : FS) (targetPath content : String) : FS × Bool :=
  match objGet fs targetPath with
  | some existing =>
    if existing = content then (fs, false) else (objSet fs targetPath content, true)
  | none => (objSet fs targetPath content, true)

/-- The per-profile options object passed to `generateProfileBlock`
(index.js:213-216).  `provider` distinguishes an absent key (`none`,
JS `undefined`, which defaults to "ollama") from an explicit `null`
(`some none`). -/
structure GenOpts where
  approval_policy : Option String
  sandbox_mode : Option String
  provider : Option (Option String)
deriving DecidableEq, Repr

/-- The `model_provider = "..."` line of the template (empty when the
provider is falsy). -/
def providerLine (provider : Option String) : String :=
  match provider with
  | some pr => if pr = "" then "" else "model_provider = \"" ++ pr ++ "\""
  | none => ""

/-- The `[profiles.<id>.model_providers.<provider>]` block of the template
(empty when the provider is falsy). -/
def providerBlock (id : String) (provider : Option String) : String :=
  match provider with
  | some pr =>
    if pr = "" then ""
    else
      "[profiles." ++ id ++ ".model_providers." ++ pr ++ "]\nname = \"" ++
        (if pr = "ollama" then "Ollama" else pr) ++
        "\"\nbase_url = \"http://localhost:11434/v1\"\nwire_api = \"responses\"\n"
  | none => ""

/-- Opening section of the template literal of `generateProfileBlock`
(index.js:218-220): profile header, model line and provider line. -/
def bodySectionA (id model : String) (provider : Option String) : String :=
  "[profiles." ++ id ++ "]\nmodel = \"" ++ model ++ "\"\n" ++
    providerLine provider

/-- Middle section of the template literal (index.js:221-227): the approval
policy, sandbox mode and fixed behavioural settings. -/
def bodySectionM (approval sandbox : String) : String :=
  "\napproval_policy = \"" ++ approval ++ "\"\nsandbox_mode = \"" ++ sandbox ++
    "\"\nmodel_reasoning_effort = \"high\"\nmodel_reasoning_summary = \"detailed\"\nmodel_verbosity = \"low\"\ntool_output_token_limit = 30000\n\n"

/-- Closing section of the template literal (index.js:228-257): provider
block, feature toggles, shell-environment policy, history, tui and the trust
declaration. -/
def bodySectionR (id : String) (provider : Option String) : String :=
  providerBlock id provider ++
    "\n\n[profiles." ++ id ++
    ".features]\nweb_search_request = true\nview_image_tool = true\nshell_snapshot = true\nparallel = true\nunified_exec = true\nskills = true\n\n[profiles." ++
    id ++
    ".shell_environment_policy]\ninherit = \"all\"\nignore_default_excludes = false\nexclude = [\"*KEY*\", \"*SECRET*\", \"*TOKEN*\", \"*PASSWORD*\", \"*CREDENTIAL*\"]\n\n[profiles." ++
    id ++
    ".history]\npersistence = \"save-all\"\nmax_bytes = 10485760\n\n[profiles." ++
    id ++
    ".tui]\nnotifications = [\"agent-turn-complete\"]\nanimations = true\n\n[profiles." ++
    id ++ ".projects.\"" ++ WORKSPACE_ROOT ++ "\"]\ntrust_level = \"trusted\""

/-- The body of the template literal of `generateProfileBlock`
(index.js:217-257), without its leading and trailing newline.  The grouping
into three appended sections is an associativity choice only; the rendered
string is the full template text. -/
def profileBody (id model approval sandbox : String) (provider : Option String) :
    String :=
  bodySectionA id model provider ++ bodySectionM approval sandbox ++
    bodySectionR id provider

/-- `generateProfileBlock(id, name, model, opts)` from index.js:213-258:
defaults the approval policy to "on-failure" and the sandbox mode to
"workspace-write", defaults the provider to "ollama" only when the key is
absent, renders the template literal and trims it.  (`name` is accepted but
unused, as in the source.) -/
def generateProfileBlock (id name : String) (model : Option String)
    (opts : GenOpts) : String :=
  let approval := jsOrOpt opts.approval_policy "on-failure"
  let sandbox := jsOrOpt opts.sandbox_mode "workspace-write"
  let provider : Option String :=
    match opts.provider with
    | none => some "ollama"
    | some p => p
  let _ := name
  jsTrim ("\n" ++ profileBody id (jsStr model) approval sandbox provider ++ "\n")

/-- `renderMainConfig(profileMap, defaultProfile)` from index.js:260-277. -/
def renderMainConfig (map : List (String × ProfileInfo)) (dflt : Option String) :
    String :=
  let entries := (map.map Prod.snd).filter (fun p => p.id ≠ "security")
  let defaultLine :=
    match dflt with
    | some d =>
      if d ≠ "" ∧ entries.any (fun p => p.id = d) then
        "default_profile = \"" ++ d ++ "\"\n"
      else ""
    | none => ""
  let header :=
    "# Autogenerated by codex-mcp (do not edit manually)\n# Source: " ++
      OPENWEBUI_DB ++ "\n" ++ defaultLine
  let blocks := entries.map (fun p =>
    generateProfileBlock p.id p.name p.baseModel
      { approval_policy := some "on-request",
        sandbox_mode :=
          some (if p.id = "default" then "danger-full-access" else "workspace-write"),
        provider := some (if p.id = "default" then none else some "ollama") })
  String.intercalate "\n\n" ((header :: blocks).filter (fun s => s ≠ "")) ++ "\n"

/-- `renderSecurityConfig(securityProfile)` from index.js:279-287: the lone
security block is rendered with approval policy "untrusted" and sandbox mode
"workspace-write" hard-coded at the call site. -/
def renderSecurityConfig (securityProfile : Option ProfileInfo) : String :=
  match securityProfile with
  | none => "# Security profile not available\n"
  | some p =>
    "# Autogenerated by codex-mcp (security isolated)\n" ++
      generateProfileBlock p.id p.name p.baseModel
        { approval_policy := some "untrusted",
          sandbox_mode := some "workspace-write", provider := none } ++ "\n"

/-- Result of `loadProfilesAndSyncConfigs`, with the filesystem after the
config writes, the rendered file contents, and the outcome of each
`writeIfChanged` call (`true` = the file was written). -/
structure SyncResult where
  profiles : List (String × ProfileInfo)
  defaultProfile : Option String
  source : String
  stderr : String
  fs : FS
  spawns : List SpawnSpec
  rendered : List (String × String)
  wrote : List Bool
deriving DecidableEq, Repr

/-- The write phase of `loadProfilesAndSyncConfigs` (index.js:300-306):
write the main config, and the security config when a security profile
exists.  Returns the filesystem and the outcome of each `writeIfChanged`
call, in order. -/
def syncWrite (fs : FS) (mainConfig : String) (secConfig : Option String) :
    FS × List Bool :=
  let w₁ := writeIfChanged fs CONFIG_PATH mainConfig
  match secConfig with
  | some c =>
    let w₂ := writeIfChanged w₁.1 SECURITY_CONFIG_PATH c
    (w₂.1, [w₁.2, w₂.2])
  | none => (w₁.1, [w₁.2])

/-- `loadProfilesAndSyncConfigs()` from index.js:289-314: query the DB
(spawning sqlite3), fall back to the static rows when empty, prepend a
synthetic default row if absent, build the profile map, choose the main
default, and idempotently write both config files. -/
def loadProfilesAndSyncConfigs (o : DbOutcome) (fs : FS) : SyncResult :=
  let r := readModelsFromDb o
  let modelRows := if r.models ≠ [] then r.models else FALLBACK_MODELS
  let modelRows :=
    if modelRows.any (fun m => m.id = "default") then modelRows
    else ⟨"default", some "Codex Max (default)", some "codex-max"⟩ :: modelRows
  let mp := buildProfileMap modelRows
  let map := mp.1
  let defaultProfile := mp.2
  let mainProfiles := (map.map Prod.snd).filter (fun p => p.id ≠ "security")
  let mainDefault :=
    jsOrField (mainProfiles.head?.map (fun p => p.id))
      (if (objGet map "security").isSome then none else defaultProfile)
  let mainConfig := renderMainConfig map mainDefault
  let secConfig :=
    (objGet map "security").map (fun sec => renderSecurityConfig (some sec))
  let w := syncWrite fs mainConfig secConfig
  { profiles := map, defaultProfile := jsOrField mainDefault defaultProfile,
    source := r.source, stderr := r.stderr, fs := w.1,
    spawns := [sqliteSpawn],
    rendered := (CONFIG_PATH, mainConfig) ::
      (match secConfig with
       | some c => [(SECURITY_CONFIG_PATH, c)]
       | none => []),
    wrote := w.2 }

/-- How a spawned codex child process behaves: it either closes (code `none`
means killed, e.g. on timeout) with captured output, or the spawn fails with
an error event (binary missing etc.). -/
inductive ChildOutcome
  | closed (code : Option Int) (stdout stderr : String)
  | errored (msg : String)
deriving DecidableEq, Repr

/-- The resolved outcome of a codex execution (`{code, stdout, stderr}`). -/
structure ProcResult where
  code : Option Int
  stdout : String
  stderr : String
deriving DecidableEq, Repr

/-- A codex `spawn` invocation including its options object
(cwd, timeout in milliseconds, and the `CODEX_HOME` set by
`buildEnvForProfile`). -/
structure CodexSpawn where
  cmd : String
  args : List String
  cwd : String
  timeoutMs : Nat
  codexHome : String
deriving DecidableEq, Repr

/-- Everything a `runCodex`/`resumeCodex` call did: the `spawn` invocations
made (in order), the codex spawn with its options if one was launched, and
the resolved result. -/
structure RunOutcome where
  spawns : List SpawnSpec
  codexSpawn : Option CodexSpawn
  result : ProcResult
deriving DecidableEq, Repr

/-- Mutable state of the server process plus the behaviour of the external
world: the filesystem, the sandbox root (`--workdir`), and how the sqlite3
and codex child processes behave when spawned. -/
structure World where
  workdir : String
  fs : FS
  db : DbOutcome
  child : ChildOutcome
deriving DecidableEq, Repr

/-- `resolveProfile(profiles, requestedProfile, defaultProfile)` from
index.js:325-331, returning the resolved profile id (`none` when unknown)
and the isolation flag. -/
def resolveProfile (profiles : List (String × ProfileInfo))
    (requestedProfile dflt : Option String) : Option String × Bool :=
  let normalized := jsOrField (normalizeProfileId requestedProfile) dflt
  match normalized with
  | none => (none, false)
  | some n =>
    if n = "" then (none, false)
    else
      match objGet profiles n with
      | some _ => (some n, n = "security")
      | none => (none, false)

/-- `(timeout || 300) * 1000` from index.js:371: the timeout option is tested
for truthiness, so both an absent and a zero timeout yield the 300 s default. -/
def effTimeoutMs (timeout : Option Nat) : Nat :=
  (match timeout with
   | some t => if t = 0 then 300 else t
   | none => 300) * 1000

/-- `runCodex(prompt, profile, model, timeout)` from index.js:333-394:
refresh profiles and configs (this spawns sqlite3), resolve the requested
profile, reject an explicitly requested unknown profile without spawning
codex, otherwise build the argument list and spawn codex. -/
def runCodex (w : World) (prompt profile model : Option String)
    (timeout : Option Nat) : RunOutcome × FS :=
  let sync := loadProfilesAndSyncConfigs w.db w.fs
  let rp := resolveProfile sync.profiles profile sync.defaultProfile
  let profileId := rp.1
  let isSecurity := rp.2
  if profileId = none ∧ jsTruthyOpt profile then
    (⟨sync.spawns, none,
      ⟨some 1, "", "Unknown profile \"" ++ profile.getD "" ++ "\"."⟩⟩, sync.fs)
  else
    let sandbox := if profileId = some "default" then "danger-full-access"
      else "workspace-write"
    let approval := if profileId = some "security" then "untrusted"
      else "on-request"
    let globalArgs :=
      if profileId = some "security" then
        ["-a", approval, "--sandbox", sandbox, "--profile", "security"]
      else
        ["--dangerously-bypass-approvals-and-sandbox"] ++
          (if profileId ≠ none ∧ profileId ≠ some "default" then
            ["--profile", profileId.getD ""]
          else [])
    let cmdArgs := globalArgs ++ ["exec", "--skip-git-repo-check"] ++
      (if jsTruthyOpt model then ["-m", model.getD ""] else []) ++
      [jsStr prompt]
    let spec : CodexSpawn :=
      { cmd := CODEX_PATH, args := cmdArgs, cwd := w.workdir,
        timeoutMs := effTimeoutMs timeout,
        codexHome := if isSecurity then SECURITY_CODEX_HOME else MAIN_CODEX_HOME }
    let result :=
      match w.child with
      | .closed code out err =>
        let profileInfo :=
          match profileId with
          | some pid => "[profile: " ++ pid ++ "] "
          | none => "[profile: default] "
        ⟨code, profileInfo ++ "\n" ++ trimOutput out 50000, trimOutput err 5000⟩
      | .errored msg => ⟨some 1, "", msg⟩
    (⟨sync.spawns ++ [⟨spec.cmd, spec.args⟩], some spec, result⟩, sync.fs)

/-- `resumeCodex(prompt, profile)` from index.js:396-445: same resolution and
flag rules as `runCodex`, but an `exec resume --last` invocation with a fixed
300 s timeout and no profile tag on stdout. -/
def resumeCodex (w : World) (prompt profile : Option String) :
    RunOutcome × FS :=
  let sync := loadProfilesAndSyncConfigs w.db w.fs
  let rp := resolveProfile sync.profiles profile sync.defaultProfile
  let profileId := rp.1
  let isSecurity := rp.2
  if profileId = none ∧ jsTruthyOpt profile then
    (⟨sync.spawns, none,
      ⟨some 1, "", "Unknown profile \"" ++ profile.getD "" ++ "\"."⟩⟩, sync.fs)
  else
    let sandbox := if profileId = some "default" then "danger-full-access"
      else "workspace-write"
    let approval := if profileId = some "security" then "untrusted"
      else "on-request"
    let cmd :=
      (if profileId = some "security" then
        ["-a", approval, "--sandbox", sandbox, "--profile", "security"]
      else
        ["--dangerously-bypass-approvals-and-sandbox"] ++
          (if profileId ≠ none ∧ profileId ≠ some "default" then
            ["--profile", profileId.getD ""]
          else [])) ++
      ["exec", "resume", "--last", jsStr prompt]
    let spec : CodexSpawn :=
      { cmd := CODEX_PATH, args := cmd, cwd := w.workdir, timeoutMs := 300000,
        codexHome := if isSecurity then SECURITY_CODEX_HOME else MAIN_CODEX_HOME }
    let result :=
      match w.child with
      | .closed code out err =>
        ⟨code, trimOutput out 50000, trimOutput err 5000⟩
      | .errored msg => ⟨some 1, "", msg⟩
    (⟨sync.spawns ++ [⟨spec.cmd, spec.args⟩], some spec, result⟩, sync.fs)

/-- `path.resolve(base, rel)` for an absolute `base`, as used by the
filesystem tools: join, then normalize `.`, `..` and duplicate separators. -/
def pathResolve (base rel : String) : String :=
  let joined := if jsStartsWith rel "/" then rel else base ++ "/" ++ rel
  let segs := (splitOnChar '/' joined).filter (fun s => s ≠ "" ∧ s ≠ ".")
  let norm := segs.foldl
    (fun acc s => if s = ".." then acc.dropLast else acc ++ [s])
    ([] : List String)
  "/" ++ String.intercalate "/" norm

/-- A `tools/call` result payload: one text content item plus the optional
`isError` flag (absent = `false`). -/
structure ToolResponse where
  text : String
  isError : Bool
deriving DecidableEq, Repr

/-- The `content`/`isError` formatting of a codex result in `handleToolCall`
(index.js:450-452, 456-458): stdout, then stderr under a marker when
non-empty, trimmed, with "(no output)" replacing an empty string. -/
def formatCombined (r : ProcResult) : ToolResponse :=
  let combined := r.stdout ++
    (if r.stderr ≠ "" then "\n\nstderr:\n" ++ r.stderr else "")
  { text := jsOr (jsTrim combined) "(no output)", isError := false }

/-- The alias/isolation-annotated listing line for one profile in the
`codex_profiles` handler (index.js:463-468). -/
def profileLine (p : ProfileInfo) : String :=
  let alias? := PROFILE_ALIASES.find? (fun kv => kv.2 = p.id ∧ kv.1 ≠ p.id)
  let aliasText :=
    match alias? with
    | some kv => " (alias: " ++ kv.1 ++ ")"
    | none => ""
  let isolation := if p.id = "security" then " [isolated CODEX_HOME]" else ""
  "• " ++ p.id ++ ": " ++ p.name ++ " (" ++ jsStr p.baseModel ++ ")" ++
    aliasText ++ isolation

/-- The full text of the `codex_profiles` response (index.js:461-472). -/
def profilesText (sync : SyncResult) : String :=
  let list := String.intercalate "\n"
    ((sync.profiles.map Prod.snd).map profileLine)
  let meta := "Source: " ++ sync.source ++
    (if sync.stderr ≠ "" then " (notes: " ++ sync.stderr ++ ")" else "")
  let dflt :=
    match sync.defaultProfile with
    | some d =>
      if d ≠ "" then "Default profile: " ++ d else "Default profile: (none)"
    | none => "Default profile: (none)"
  "Available profiles:\n" ++ list ++ "\n" ++ dflt ++ "\n" ++ meta

/-- `fs_read` (index.js:475-484): resolve against the workdir, reject
resolved paths that fail the raw `startsWith` prefix check, then read
(truncated to 256000 characters). -/
def fsReadTool (workdir : String) (fs : FS) (p : Option String) :
    ToolResponse :=
  match p with
  | none => { text := "Error: path argument missing", isError := true }
  | some rel =>
    let fullPath := pathResolve workdir rel
    if jsStartsWith fullPath workdir = false then
      { text := "Error: Path outside workdir", isError := true }
    else
      match objGet fs fullPath with
      | some content => { text := strTake content 256000, isError := false }
      | none =>
        { text := "Error: ENOENT: no such file or directory",
          isError := true }

/-- `fs_write` (index.js:486-496): resolve, prefix-check, then write. -/
def fsWriteTool (workdir : String) (fs : FS) (p content : Option String) :
    ToolResponse × FS :=
  match p, content with
  | some rel, some c =>
    let fullPath := pathResolve workdir rel
    if jsStartsWith fullPath workdir = false then
      ({ text := "Error: Path outside workdir", isError := true }, fs)
    else
      ({ text := "Written: " ++ rel, isError := false }, objSet fs fullPath c)
  | _, _ => ({ text := "Error: missing argument", isError := true }, fs)

/-- One directory entry of the scan under `dir` contributed by the file at
path `fp`: an immediate child file is tagged `[F]`, a deeper path contributes
its first segment tagged `[D]`. -/
def childEntry (dir fp : String) : Option String :=
  if jsStartsWith fp (dir ++ "/") then
    match splitOnChar '/' (⟨fp.data.drop (dir.length + 1)⟩ : String) with
    | [n] => some ("[F] " ++ n)
    | n :: _ :: _ => some ("[D] " ++ n)
    | [] => none
  else none

/-- The `readdirSync` scan of `fs_list`, modelled over the file map. -/
def listEntries (fs : FS) (dir : String) : List String :=
  (fs.filterMap (fun pr => childEntry dir pr.1)).dedup

/-- `fs_list` (index.js:498-508): resolve (default path "."), prefix-check,
scan, and join the tagged entries ("(empty)" when there are none). -/
def fsListTool (workdir : String) (fs : FS) (p : Option String) :
    ToolResponse :=
  let rel := jsOrOpt p "."
  let targetPath := pathResolve workdir rel
  if jsStartsWith targetPath workdir = false then
    { text := "Error: Path outside workdir", isError := true }
  else
    { text := jsOr (String.intercalate "\n" (listEntries fs targetPath)) "(empty)",
      isError := false }

/-- The argument object of a `tools/call` request (absent fields = `none`). -/
structure CallArgs where
  prompt : Option String := none
  profile : Option String := none
  model : Option String := none
  timeout : Option Nat := none
  path : Option String := none
  content : Option String := none
deriving DecidableEq, Repr

/-- `handleToolCall(name, args)` from index.js:447-513: dispatch on the tool
name, with the default branch returning the "Unknown tool" payload with the
error flag set. -/
def handleToolCall (name : String) (args : CallArgs) (w : World) :
    ToolResponse × World :=
  if name = "codex_run" then
    let r := runCodex w args.prompt args.profile args.model args.timeout
    (formatCombined r.1.result, { w with fs := r.2 })
  else if name = "codex_resume" then
    let r := resumeCodex w args.prompt args.profile
    (formatCombined r.1.result, { w with fs := r.2 })
  else if name = "codex_profiles" then
    let sync := loadProfilesAndSyncConfigs w.db w.fs
    ({ text := profilesText sync, isError := false }, { w with fs := sync.fs })
  else if name = "fs_read" then
    (fsReadTool w.workdir w.fs args.path, w)
  else if name = "fs_write" then
    let r := fsWriteTool w.workdir w.fs args.path args.content
    (r.1, { w with fs := r.2 })
  else if name = "fs_list" then
    (fsListTool w.workdir w.fs args.path, w)
  else
    ({ text := "Unknown tool: " ++ name, isError := true }, w)

/-- The six operation names of the `TOOLS` catalog (index.js:60-128). -/
def TOOL_NAMES : List String :=
  ["codex_run", "codex_resume", "codex_profiles", "fs_read", "fs_write",
   "fs_list"]

/-- An incoming JSON-RPC message (the fields `handleMessage` reads). -/
structure RpcRequest where
  id : Option Nat := none
  method : String
  paramsName : String := ""
  paramsArgs : CallArgs := {}
deriving DecidableEq, Repr

/-- An outgoing JSON-RPC message: either a normal `result` payload (for
`initialize`, `tools/list` or a `tools/call` result) or a transport-level
`error` object. -/
inductive OutMsg
  | resultInit (id : Option Nat)
  | resultToolsList (id : Option Nat) (names : List String)
  | resultCall (id : Option Nat) (r : ToolResponse)
  | errMsg (id : Option Nat) (code : Int) (message : String)
deriving DecidableEq, Repr

/-- `handleMessage(msg)` from index.js:519-565: route by method; `tools/call`
wraps the tool response in a normal `result` message (the embedded handlers
are total, so the catch branch sending a -32000 error is unreachable);
unknown methods produce a -32601 transport error. -/
def handleMessage (w : World) (m : RpcRequest) : List OutMsg × World :=
  if m.method = "initialize" then ([.resultInit m.id], w)
  else if m.method = "notifications/initialized" then ([], w)
  else if m.method = "tools/list" then ([.resultToolsList m.id TOOL_NAMES], w)
  else if m.method = "tools/call" then
    let r := handleToolCall m.paramsName m.paramsArgs w
    ([.resultCall m.id r.1], r.2)
  else ([.errMsg m.id (-32601) "Method not found"], w)

/-! ## Helper lemmas -/

theorem dropWhile_all_append {f : Char → Bool} (p t : List Char)
    (hp : ∀ a ∈ p, f a = true) :
    List.dropWhile f (p ++ t) = List.dropWhile f t := by
  induction p with
  | nil => rfl
  | cons a as ih =>
    simp only [List.cons_append, List.dropWhile_cons, hp a (List.mem_cons_self a as),
      if_true]
    exact ih (fun x hx => hp x (List.mem_cons_of_mem a hx))

theorem jsTrimList_spec (p s l : List Char) (c d : Char)
    (hp : ∀ a ∈ p, isJsWs a = true) (hs : ∀ a ∈ s, isJsWs a = true)
    (hc : isJsWs c = false) (hd : isJsWs d = false)
    (h1 : l.head? = some c) (h2 : l.getLast? = some d) :
    jsTrimList (p ++ l ++ s) = l := by
  cases l with
  | nil => simp at h1
  | cons x l' =>
    simp only [List.head?_cons, Option.some.injEq] at h1
    subst h1
    unfold jsTrimList
    rw [List.append_assoc, dropWhile_all_append _ _ hp]
    rw [List.cons_append, List.dropWhile_cons, hc]
    simp only [Bool.false_eq_true, if_false]
    rw [List.reverse_cons, List.reverse_append]
    rw [List.append_assoc,
      dropWhile_all_append _ _ (fun a ha => hs a (List.mem_reverse.mp ha))]
    have hrev : (l'.reverse ++ [x]).head? = some d := by
      have hx : (x :: l').reverse.head? = some d := by
        rw [List.head?_reverse]; exact h2
      simpa using hx
    cases hx : l'.reverse ++ [x] with
    | nil => rw [hx] at hrev; simp at hrev
    | cons y ys =>
      rw [hx] at hrev
      simp only [List.head?_cons, Option.some.injEq] at hrev
      subst hrev
      rw [List.dropWhile_cons, hd]
      simp only [Bool.false_eq_true, if_false]
      have hyy : (y :: ys) = (x :: l').reverse := by rw [← hx]; simp
      rw [hyy, List.reverse_reverse]

theorem jsTrim_newline_wrap (b : String) (c d : Char)
    (hc : isJsWs c = false) (hd : isJsWs d = false)
    (hh : b.data.head? = some c) (hl : b.data.getLast? = some d) :
    jsTrim ("\n" ++ b ++ "\n") = b := by
  unfold jsTrim
  have hdata : ("\n" ++ b ++ "\n").data = ['\n'] ++ b.data ++ ['\n'] := by
    rw [String.data_append, String.data_append]
  rw [hdata,
    jsTrimList_spec ['\n'] ['\n'] b.data c d (by decide) (by decide) hc hd hh hl]

theorem profileBody_head (id model approval sandbox : String)
    (provider : Option String) :
    (profileBody id model approval sandbox provider).data.head? = some '[' := rfl

theorem profileBody_last (id model approval sandbox : String)
    (provider : Option String) :
    (profileBody id model approval sandbox provider).data.getLast? = some '"' := by
  simp only [profileBody, bodySectionR, String.data_append, List.getLast?_append]
  rfl

/-- The trimmed template equals the body: the template literal starts with a
newline, then `[`, and ends with `"` followed by a newline, so `trim` strips
exactly the wrapping newlines. -/
theorem generateProfileBlock_eq (id name : String) (model : Option String)
    (opts : GenOpts) :
    generateProfileBlock id name model opts =
      profileBody id (jsStr model) (jsOrOpt opts.approval_policy "on-failure")
        (jsOrOpt opts.sandbox_mode "workspace-write")
        (match opts.provider with | none => some "ollama" | some p => p) := by
  unfold generateProfileBlock
  exact jsTrim_newline_wrap _ '[' '"' (by decide) (by decide)
    (profileBody_head _ _ _ _ _) (profileBody_last _ _ _ _ _)

theorem strContains_append_left (s : String) {t pat : String}
    (h : StrContains t pat) : StrContains (s ++ t) pat := by
  obtain ⟨u, v, hh⟩ := h
  exact ⟨s.data ++ u, v, by rw [String.data_append, ← hh]; simp [List.append_assoc]⟩

theorem strContains_append_right (s : String) {t pat : String}
    (h : StrContains t pat) : StrContains (t ++ s) pat := by
  obtain ⟨u, v, hh⟩ := h
  exact ⟨u, v ++ s.data, by rw [String.data_append, ← hh]; simp [List.append_assoc]⟩

/-! ## Claims -/

/-- C5: for every profile registry state, the rendered configuration for the
isolated (security) profile contains `approval_policy = "untrusted"` (the most
restrictive approval mode) and `sandbox_mode = "workspace-write"` (the
write-limited sandbox mode).  `renderSecurityConfig` hard-codes both settings
at its single `generateProfileBlock` call site and accepts no override
parameter, so no caller-supplied override can weaken them. -/
theorem renderSecurityConfig_restrictive (p : ProfileInfo) :
    StrContains (renderSecurityConfig (some p)) "approval_policy = \"untrusted\"" ∧
    StrContains (renderSecurityConfig (some p)) "sandbox_mode = \"workspace-write\"" := by
  have hbody : renderSecurityConfig (some p) =
      "# Autogenerated by codex-mcp (security isolated)\n" ++
        profileBody p.id (jsStr p.baseModel) "untrusted" "workspace-write"
          (some "ollama") ++ "\n" := by
    rw [show renderSecurityConfig (some p) =
        "# Autogenerated by codex-mcp (security isolated)\n" ++
          generateProfileBlock p.id p.name p.baseModel
            { approval_policy := some "untrusted",
              sandbox_mode := some "workspace-write", provider := none } ++ "\n"
      from rfl, generateProfileBlock_eq]
    rfl
  rw [hbody]
  constructor
  · apply strContains_append_right
    apply strContains_append_left
    unfold profileBody
    apply strContains_append_right
    apply strContains_append_left
    decide
  · apply strContains_append_right
    apply strContains_append_left
    unfold profileBody
    apply strContains_append_right
    apply strContains_append_left
    decide

/-- C7: output-truncation policy of `trimOutput` — a string within the cap is
returned unchanged, a longer one is reported as the truncation marker followed
by exactly the last `c` characters (a length-`c` suffix of the input).
`runCodex` applies this with cap 50000 to stdout and cap 5000 to stderr. -/
theorem trimOutput_tail_policy (s : String) (c : Nat) (hc : 0 < c) :
    (s.length ≤ c → trimOutput s c = s) ∧
    (c < s.length → ∃ t : String, trimOutput s c = "...[truncated]...\n" ++ t ∧
      t.length = c ∧ t.data <:+ s.data) := by
  have hlen : s.length = s.data.length := rfl
  constructor
  · intro h
    unfold trimOutput
    split_ifs with h1 h2
    · exact h1.symm
    · omega
    · rfl
  · intro h
    have hne : ¬ (s = "") := by
      intro he
      subst he
      rw [show ("" : String).length = 0 from rfl] at h
      omega
    unfold trimOutput
    rw [if_neg hne, if_pos h]
    refine ⟨⟨s.data.drop (s.length - c)⟩, rfl, ?_, List.drop_suffix _ _⟩
    show (s.data.drop (s.length - c)).length = c
    rw [List.length_drop]
    omega

/-- Witness for C7 at `s = "abcdef"`, `c = 3`. -/
theorem trimOutput_tail_policy_witness :
    0 < 3 ∧ ((("abcdef" : String).length ≤ 3 → trimOutput "abcdef" 3 = "abcdef") ∧
      (3 < ("abcdef" : String).length → ∃ t : String,
        trimOutput "abcdef" 3 = "...[truncated]...\n" ++ t ∧ t.length = 3 ∧
          t.data <:+ ("abcdef" : String).data)) :=
  ⟨by decide, trimOutput_tail_policy "abcdef" 3 (by decide)⟩

/-- C8: alias resolution is idempotent — resolving the result of resolving any
profile name gives the same identifier; the alias "fast" resolves to the same
canonical profile as its target "oss20b"; and every canonical profile id
resolves to itself unchanged. -/
theorem normalizeProfileId_idempotent :
    (∀ x : Option String,
      normalizeProfileId (normalizeProfileId x) = normalizeProfileId x) ∧
    normalizeProfileId (some "fast") = normalizeProfileId (some "oss20b") ∧
    (["default", "oss20b", "oss120b", "deepseek", "qwen-coder", "security"].all
      (fun c => normalizeProfileId (some c) == some c)) = true := by
  refine ⟨?_, by decide, by decide⟩
  intro x
  match x with
  | none => rfl
  | some s =>
    by_cases hs : s = ""
    · simp [normalizeProfileId, hs]
    · rcases h : aliasGet s with _ | v
      · have e1 : normalizeProfileId (some s) = some s := by
          simp [normalizeProfileId, hs, h]
        rw [e1, e1]
      · have hv : v = "default" ∨ v = "oss20b" ∨ v = "oss120b" ∨ v = "deepseek" ∨
            v = "qwen-coder" ∨ v = "security" := by
          unfold aliasGet at h
          split_ifs at h <;> simp_all
        have hvne : v ≠ "" := by
          rcases hv with rfl | rfl | rfl | rfl | rfl | rfl <;> decide
        have e1 : normalizeProfileId (some s) = some v := by
          simp [normalizeProfileId, hs, h, hvne]
        rw [e1]
        rcases hv with rfl | rfl | rfl | rfl | rfl | rfl <;> rfl

/-- C9: a `codex_run` call with a supplied timeout of 0 launches the codex
child process with the default 300-second (300000 ms) timeout, because
`(timeout || 300)` tests the argument for truthiness and `0` is falsy. -/
theorem runCodex_timeout_zero (w : World) (prompt profile model : Option String)
    (sp : CodexSpawn)
    (h : (runCodex w prompt profile model (some 0)).1.codexSpawn = some sp) :
    sp.timeoutMs = 300 * 1000 := by
  unfold runCodex at h
  dsimp only at h
  split at h
  · simp at h
  · rw [Option.some.injEq] at h
    subst h
    rfl

/-- Witness for C9: a concrete call with `timeout = 0` (default profile,
fallback registry) spawns codex with a 300000 ms timeout. -/
theorem runCodex_timeout_zero_witness :
    (runCodex ⟨"/wd", [], .failed "boom", .closed (some 0) "" ""⟩ (some "hi")
        none none (some 0)).1.codexSpawn =
      some ⟨CODEX_PATH,
        ["--dangerously-bypass-approvals-and-sandbox", "exec",
          "--skip-git-repo-check", "hi"], "/wd", 300000, MAIN_CODEX_HOME⟩ ∧
    (⟨CODEX_PATH,
      ["--dangerously-bypass-approvals-and-sandbox", "exec",
        "--skip-git-repo-check", "hi"], "/wd", 300000,
      MAIN_CODEX_HOME⟩ : CodexSpawn).timeoutMs = 300 * 1000 :=
  ⟨by decide,
    runCodex_timeout_zero ⟨"/wd", [], .failed "boom", .closed (some 0) "" ""⟩
      (some "hi") none none
      ⟨CODEX_PATH,
        ["--dangerously-bypass-approvals-and-sandbox", "exec",
          "--skip-git-repo-check", "hi"], "/wd", 300000, MAIN_CODEX_HOME⟩
      (by decide)⟩

/-- C10: a `tools/call` request whose tool name is not one of the six known
operations yields a normal JSON-RPC `result` payload (the `resultCall`
constructor, not a transport-level error object) whose content has the error
flag set and the text `Unknown tool: <name>`. -/
theorem handleMessage_unknown_tool (w : World) (id : Option Nat) (name : String)
    (args : CallArgs) (h : name ∉ TOOL_NAMES) :
    handleMessage w ⟨id, "tools/call", name, args⟩ =
      ([OutMsg.resultCall id ⟨"Unknown tool: " ++ name, true⟩], w) := by
  simp only [TOOL_NAMES, List.mem_cons, List.not_mem_nil, or_false] at h
  push_neg at h
  obtain ⟨n1, n2, n3, n4, n5, n6⟩ := h
  unfold handleMessage handleToolCall
  rw [if_neg (by decide : ¬ ("tools/call" = "initialize")),
    if_neg (by decide : ¬ ("tools/call" = "notifications/initialized")),
    if_neg (by decide : ¬ ("tools/call" = "tools/list")),
    if_pos rfl]
  rw [if_neg n1, if_neg n2, if_neg n3, if_neg n4, if_neg n5, if_neg n6]

/-- Witness for C10 at the unknown tool name "bogus". -/
theorem handleMessage_unknown_tool_witness :
    handleMessage ⟨"/wd", [], .failed "no db", .errored "unused"⟩
        ⟨some 7, "tools/call", "bogus", {}⟩ =
      ([OutMsg.resultCall (some 7) ⟨"Unknown tool: " ++ "bogus", true⟩],
        ⟨"/wd", [], .failed "no db", .errored "unused"⟩) :=
  handleMessage_unknown_tool ⟨"/wd", [], .failed "no db", .errored "unused"⟩
    (some 7) "bogus" {} (by decide)

/-- C1 (failing input): with sandbox root `/data` the caller-supplied relative
path `../data-other/x` resolves to the sibling path `/data-other/x`, which
lies outside the root (`/data/` is not a prefix of it), yet the raw
`startsWith` check of `fs_read`/`fs_write`/`fs_list` accepts it, and all
three operations go on to perform filesystem I/O outside the root: the read
returns the outside file's content, the write creates a file outside the
root, and the list enumerates the outside directory. -/
theorem fs_sandbox_prefix_bypass :
    pathResolve "/data" "../data-other/x" = "/data-other/x" ∧
    jsStartsWith "/data-other/x" "/data" = true ∧
    jsStartsWith "/data-other/x" "/data/" = false ∧
    (handleToolCall "fs_read" { path := some "../data-other/x" }
        ⟨"/data", [("/data-other/x", "secret")], .failed "no db",
          .errored "unused"⟩).1 = ⟨"secret", false⟩ ∧
    objGet ((handleToolCall "fs_write"
        { path := some "../data-other/y", content := some "hi" }
        ⟨"/data", [], .failed "no db", .errored "unused"⟩).2.fs)
      "/data-other/y" = some "hi" ∧
    (handleToolCall "fs_list" { path := some "../data-other" }
        ⟨"/data", [("/data-other/x", "secret")], .failed "no db",
          .errored "unused"⟩).1 = ⟨"[F] x", false⟩ := by
  decide

theorem objGet_objSet_self {β : Type} (m : List (String × β)) (k : String)
    (v : β) : objGet (objSet m k v) k = some v := by
  induction m with
  | nil => simp [objSet, objGet]
  | cons p rest ih =>
    obtain ⟨k', v'⟩ := p
    by_cases h : k' = k
    · simp [objSet, objGet, h]
    · simp [objSet, objGet, h, ih]

theorem objGet_objSet_other {β : Type} (m : List (String × β)) (k q : String)
    (v : β) (h : q ≠ k) : objGet (objSet m k v) q = objGet m q := by
  induction m with
  | nil => simp [objSet, objGet, Ne.symm h]
  | cons p rest ih =>
    obtain ⟨k', v'⟩ := p
    by_cases hk : k' = k
    · subst hk
      simp [objSet, objGet, Ne.symm h]
    · simp only [objSet, if_neg hk]
      by_cases hq : k' = q
      · simp [objGet, hq]
      · simp [objGet, hq, ih]

theorem writeIfChanged_lookup (fs : FS) (p c : String) :
    objGet (writeIfChanged fs p c).1 p = some c := by
  unfold writeIfChanged
  cases h : objGet fs p with
  | none => simp [objGet_objSet_self]
  | some e =>
    by_cases he : e = c
    · subst he
      simp [h]
    · simp [he, objGet_objSet_self]

theorem writeIfChanged_other (fs : FS) (p c q : String) (h : q ≠ p) :
    objGet (writeIfChanged fs p c).1 q = objGet fs q := by
  unfold writeIfChanged
  cases hg : objGet fs p with
  | none => simp [objGet_objSet_other _ _ _ _ h]
  | some e =>
    by_cases he : e = c
    · simp [he]
    · simp [he, objGet_objSet_other _ _ _ _ h]

theorem writeIfChanged_skip (fs : FS) (p c : String)
    (h : objGet fs p = some c) : writeIfChanged fs p c = (fs, false) := by
  unfold writeIfChanged
  rw [h]
  simp

theorem syncWrite_idem (fs : FS) (mainConfig : String) (sec : Option String) :
    (syncWrite (syncWrite fs mainConfig sec).1 mainConfig sec).1 =
      (syncWrite fs mainConfig sec).1 ∧
    ((syncWrite (syncWrite fs mainConfig sec).1 mainConfig sec).2.all
      (fun b => !b)) = true := by
  cases sec with
  | none =>
    unfold syncWrite
    dsimp only
    rw [writeIfChanged_skip _ _ _ (writeIfChanged_lookup _ _ _)]
    simp
  | some c =>
    unfold syncWrite
    dsimp only
    have hCP : objGet ((writeIfChanged
        (writeIfChanged fs CONFIG_PATH mainConfig).1
        SECURITY_CONFIG_PATH c).1) CONFIG_PATH = some mainConfig := by
      rw [writeIfChanged_other _ _ _ _ (by decide)]
      exact writeIfChanged_lookup _ _ _
    have hSP : objGet ((writeIfChanged
        (writeIfChanged fs CONFIG_PATH mainConfig).1
        SECURITY_CONFIG_PATH c).1) SECURITY_CONFIG_PATH = some c :=
      writeIfChanged_lookup _ _ _
    rw [writeIfChanged_skip _ _ _ hCP]
    dsimp only
    rw [writeIfChanged_skip _ _ _ hSP]
    simp

/-- C6: config synthesis is idempotent — with unchanged inputs (same DB
outcome) the second run renders byte-identical file contents, leaves the
filesystem untouched, and every `writeIfChanged` call of the second run skips
its write because the existing on-disk content equals the newly rendered
content. -/
theorem configSync_idempotent (o : DbOutcome) (fs : FS) :
    (loadProfilesAndSyncConfigs o (loadProfilesAndSyncConfigs o fs).fs).rendered =
      (loadProfilesAndSyncConfigs o fs).rendered ∧
    (loadProfilesAndSyncConfigs o (loadProfilesAndSyncConfigs o fs).fs).fs =
      (loadProfilesAndSyncConfigs o fs).fs ∧
    ((loadProfilesAndSyncConfigs o (loadProfilesAndSyncConfigs o fs).fs).wrote.all
      (fun b => !b)) = true := by
  unfold loadProfilesAndSyncConfigs
  dsimp only
  exact ⟨rfl, (syncWrite_idem _ _ _).1, (syncWrite_idem _ _ _).2⟩

theorem objSet_keys {β : Type} (m : List (String × β)) (k : String) (v : β)
    (k' : String) (h : k' ∈ (objSet m k v).map Prod.fst) :
    k' ∈ m.map Prod.fst ∨ k' = k := by
  induction m with
  | nil =>
    right
    simpa [objSet] using h
  | cons p rest ih =>
    obtain ⟨a, b⟩ := p
    by_cases ha : a = k
    · rw [show objSet ((a, b) :: rest) k v = (k, v) :: rest by
        simp [objSet, ha]] at h
      simp only [List.map_cons, List.mem_cons] at h ⊢
      rcases h with h1 | h1
      · right; exact h1
      · left; right; exact h1
    · rw [show objSet ((a, b) :: rest) k v = (a, b) :: objSet rest k v by
        simp [objSet, ha]] at h
      simp only [List.map_cons, List.mem_cons] at h ⊢
      rcases h with h1 | h1
      · left; left; exact h1
      · rcases ih h1 with h2 | h2
        · left; right; exact h2
        · right; exact h2

theorem normalizeProfileId_ne_empty (s v : String)
    (h : normalizeProfileId (some s) = some v) : v ≠ "" := by
  simp only [normalizeProfileId] at h
  by_cases hs : s = ""
  · simp [hs] at h
  · rw [if_neg hs] at h
    cases ha : aliasGet s with
    | none =>
      rw [ha] at h
      dsimp only at h
      simp only [Option.some.injEq] at h
      subst h
      exact hs
    | some a =>
      rw [ha] at h
      dsimp only at h
      by_cases haa : a = ""
      · rw [if_pos haa] at h
        simp only [Option.some.injEq] at h
        subst h
        exact hs
      · rw [if_neg haa] at h
        simp only [Option.some.injEq] at h
        subst h
        exact haa

theorem buildStep_keys (m : List (String × ProfileInfo)) (row : ModelRow)
    (hm : ∀ k ∈ m.map Prod.fst, k ≠ "") :
    ∀ k ∈ (buildStep m row).map Prod.fst, k ≠ "" := by
  intro k hk
  unfold buildStep at hk
  cases hn : normalizeProfileId (some row.id) with
  | none =>
    rw [hn] at hk
    exact hm k hk
  | some id =>
    rw [hn] at hk
    dsimp only at hk
    by_cases hc : row.id = "kimi" ∨ id = "security"
    · rw [if_pos hc] at hk
      rcases objSet_keys _ _ _ _ hk with h | h
      · exact hm k h
      · subst h; decide
    · rw [if_neg hc] at hk
      rcases objSet_keys _ _ _ _ hk with h | h
      · exact hm k h
      · subst h
        exact normalizeProfileId_ne_empty _ _ hn

theorem foldl_buildStep_keys (rows : List ModelRow)
    (m : List (String × ProfileInfo)) (hm : ∀ k ∈ m.map Prod.fst, k ≠ "") :
    ∀ k ∈ (rows.foldl buildStep m).map Prod.fst, k ≠ "" := by
  induction rows generalizing m with
  | nil => exact hm
  | cons r rs ih => exact ih _ (buildStep_keys m r hm)

theorem buildProfileMap_keys (rows : List ModelRow) :
    ∀ k ∈ (buildProfileMap rows).1.map Prod.fst, k ≠ "" := by
  intro k hk
  unfold buildProfileMap at hk
  dsimp only at hk
  split at hk
  · rcases objSet_keys _ _ _ _ hk with h2 | h2
    · exact foldl_buildStep_keys rows [] (by simp) k h2
    · subst h2; decide
  · exact foldl_buildStep_keys rows [] (by simp) k hk

theorem buildProfileMap_snd (rows : List ModelRow) :
    (buildProfileMap rows).2 =
      (if (objGet (buildProfileMap rows).1 "default").isSome then some "default"
       else
         jsOrField
           (((buildProfileMap rows).1.map Prod.fst).filter
             (fun k => k ≠ "security")).head?
           (jsOrField ((buildProfileMap rows).1.map Prod.fst).head? none)) := rfl

/-- The registry's internal default selection (index.js:197-199): for every
row set, `buildProfileMap` selects the entry literally named "default"
whenever that key exists in the mapping; only otherwise the first
non-security key in the mapping's insertion order; then the first key of the
mapping at all; then none.  (`loadProfilesAndSyncConfigs` overrides this
selection — see `registry_default_selection`.) -/
theorem buildProfileMap_default_rule (rows : List ModelRow) :
    (buildProfileMap rows).2 =
      (if (objGet (buildProfileMap rows).1 "default").isSome then some "default"
       else
         match ((buildProfileMap rows).1.map Prod.fst).filter
             (fun k => k ≠ "security") with
         | k :: _ => some k
         | [] => ((buildProfileMap rows).1.map Prod.fst).head?) := by
  have hkeys := buildProfileMap_keys rows
  rw [buildProfileMap_snd]
  by_cases hdef : (objGet (buildProfileMap rows).1 "default").isSome
  · rw [if_pos hdef, if_pos hdef]
  · rw [if_neg hdef, if_neg hdef]
    cases hfl : ((buildProfileMap rows).1.map Prod.fst).filter
        (fun k => k ≠ "security") with
    | nil =>
      simp only [List.head?_nil]
      cases hh : ((buildProfileMap rows).1.map Prod.fst).head? with
      | none => simp [jsOrField]
      | some k =>
        have hk : k ≠ "" := hkeys k (List.mem_of_mem_head? (by rw [hh]; rfl))
        simp [jsOrField, hk]
    | cons k ks =>
      have hkmem : k ∈ ((buildProfileMap rows).1.map Prod.fst).filter
          (fun x => x ≠ "security") := by
        rw [hfl]; exact List.mem_cons_self _ _
      have hk : k ≠ "" := hkeys k (List.mem_of_mem_filter hkmem)
      simp only [List.head?_cons]
      simp [jsOrField, hk]

theorem strContains_self (pat : String) : StrContains pat pat :=
  ⟨[], [], by simp⟩

theorem readModelsFromDb_error_models (o : DbOutcome)
    (h : (readModelsFromDb o).source = "error") :
    (readModelsFromDb o).models = [] := by
  cases o with
  | failed msg => rfl
  | closed code out err =>
    unfold readModelsFromDb at h ⊢
    dsimp only at h ⊢
    by_cases hc : code = some 0 ∧ jsTrim out ≠ ""
    · rw [if_pos hc] at h
      have h2 : ("openwebui" : String) = "error" := h
      exact absurd h2 (by decide)
    · rw [if_neg hc]

/-- C3: whenever the external data source is unavailable (the DB read yields
the degraded provenance, the code's literal tag "error" for what the spec
calls "fallback"), `codex_profiles` returns exactly the static fallback
profile set after alias normalization — which already includes the default
entry — and its response text reports that source. -/
theorem codex_profiles_fallback (w : World)
    (h : (readModelsFromDb w.db).source = "error") :
    (loadProfilesAndSyncConfigs w.db w.fs).profiles = fallbackProfileEntries ∧
    (loadProfilesAndSyncConfigs w.db w.fs).source = "error" ∧
    StrContains (handleToolCall "codex_profiles" {} w).1.text "Source: error" ∧
    (handleToolCall "codex_profiles" {} w).1.isError = false := by
  have hmodels : (readModelsFromDb w.db).models = [] :=
    readModelsFromDb_error_models _ h
  have hprof : (loadProfilesAndSyncConfigs w.db w.fs).profiles =
      fallbackProfileEntries := by
    unfold loadProfilesAndSyncConfigs
    dsimp only
    rw [hmodels]
    rfl
  have hsource : (loadProfilesAndSyncConfigs w.db w.fs).source = "error" := by
    unfold loadProfilesAndSyncConfigs
    dsimp only
    exact h
  have htool : (handleToolCall "codex_profiles" {} w).1 =
      ⟨profilesText (loadProfilesAndSyncConfigs w.db w.fs), false⟩ := by
    unfold handleToolCall
    rw [if_neg (by decide : ¬ ("codex_profiles" = "codex_run")),
      if_neg (by decide : ¬ ("codex_profiles" = "codex_resume")),
      if_pos rfl]
  refine ⟨hprof, hsource, ?_, by rw [htool]⟩
  rw [htool]
  show StrContains (profilesText (loadProfilesAndSyncConfigs w.db w.fs))
    "Source: error"
  unfold profilesText
  dsimp only
  rw [hsource]
  apply strContains_append_left
  apply strContains_append_right
  decide

/-- Witness for C3 at a failed DB spawn. -/
theorem codex_profiles_fallback_witness :
    (readModelsFromDb (DbOutcome.failed "boom")).source = "error" ∧
    ((loadProfilesAndSyncConfigs (DbOutcome.failed "boom") []).profiles =
        fallbackProfileEntries ∧
      (loadProfilesAndSyncConfigs (DbOutcome.failed "boom") []).source = "error" ∧
      StrContains (handleToolCall "codex_profiles" {}
          ⟨"/wd", [], DbOutcome.failed "boom", ChildOutcome.errored "unused"⟩).1.text
        "Source: error" ∧
      (handleToolCall "codex_profiles" {}
          ⟨"/wd", [], DbOutcome.failed "boom",
            ChildOutcome.errored "unused"⟩).1.isError = false) :=
  ⟨by decide,
    codex_profiles_fallback
      ⟨"/wd", [], DbOutcome.failed "boom", ChildOutcome.errored "unused"⟩
      (by decide)⟩

theorem str_append_assoc (a b c : String) : a ++ b ++ c = a ++ (b ++ c) := by
  cases a with
  | mk la =>
    cases b with
    | mk lb =>
      cases c with
      | mk lc =>
        show String.mk ((la ++ lb) ++ lc) = String.mk (la ++ (lb ++ lc))
        exact congrArg String.mk (List.append_assoc la lb lc)

/-- The `codex_run` response formatting of an unknown-profile failure:
the combined text trims to `stderr:` followed by the failure message, which
contains "Unknown profile". -/
theorem formatCombined_unknown (p : String) :
    (formatCombined ⟨some 1, "", "Unknown profile \"" ++ p ++ "\"."⟩).text =
      "stderr:\n" ++ ("Unknown profile \"" ++ p ++ "\".") ∧
    StrContains (formatCombined ⟨some 1, "", "Unknown profile \"" ++ p ++ "\"."⟩).text
      "Unknown profile" := by
  have hSne : ("Unknown profile \"" ++ p ++ "\"." : String) ≠ "" := by
    intro he
    have h0 : ("Unknown profile \"" ++ p ++ "\"." : String).data.head? = some 'U' := rfl
    rw [he] at h0
    simp at h0
  have hB : (formatCombined ⟨some 1, "", "Unknown profile \"" ++ p ++ "\"."⟩).text =
      "stderr:\n" ++ ("Unknown profile \"" ++ p ++ "\".") := by
    unfold formatCombined
    dsimp only
    rw [if_pos hSne]
    have hdata : (("" : String) ++
        ("\n\nstderr:\n" ++ ("Unknown profile \"" ++ p ++ "\"."))).data =
        ['\n', '\n'] ++
          ("stderr:\n" ++ ("Unknown profile \"" ++ p ++ "\".")).data ++ [] := by
      simp only [String.data_append, List.append_nil, List.nil_append]
      simp
    have hhead : (("stderr:\n" ++ ("Unknown profile \"" ++ p ++ "\".")) :
        String).data.head? = some 's' := rfl
    have hlast : (("stderr:\n" ++ ("Unknown profile \"" ++ p ++ "\".")) :
        String).data.getLast? = some '.' := by
      simp only [String.data_append, List.getLast?_append]
      rfl
    have htrim : jsTrim ("" ++
        ("\n\nstderr:\n" ++ ("Unknown profile \"" ++ p ++ "\"."))) =
        "stderr:\n" ++ ("Unknown profile \"" ++ p ++ "\".") := by
      unfold jsTrim
      rw [hdata, jsTrimList_spec ['\n', '\n'] []
        (("stderr:\n" ++ ("Unknown profile \"" ++ p ++ "\".")) : String).data
        's' '.' (by decide) (by decide) (by decide) (by decide) hhead hlast]
    rw [htrim]
    have hBne : ("stderr:\n" ++ ("Unknown profile \"" ++ p ++ "\".") : String) ≠ "" := by
      intro he
      have h0 : ("stderr:\n" ++ ("Unknown profile \"" ++ p ++ "\".") :
          String).data.head? = some 's' := rfl
      rw [he] at h0
      simp at h0
    unfold jsOr
    rw [if_pos hBne]
  refine ⟨hB, ?_⟩
  rw [hB]
  apply strContains_append_left
  apply strContains_append_right
  rw [show ("Unknown profile \"" : String) = "Unknown profile" ++ " \"" from rfl,
    str_append_assoc]
  exact strContains_append_right _ (strContains_self _)

/-- C2 (amended): a `codex_run` call with a non-empty profile name that does
not resolve to a known profile returns the failure result whose text contains
"Unknown profile", and the wrapped codex CLI is never spawned — the only
child process spawned while handling the call is the registry-refresh sqlite3
query subprocess. -/
theorem runCodex_unknown_profile (w : World) (prompt model : Option String)
    (timeout : Option Nat) (p : String) (hp : p ≠ "")
    (hmiss : (resolveProfile (loadProfilesAndSyncConfigs w.db w.fs).profiles
        (some p) (loadProfilesAndSyncConfigs w.db w.fs).defaultProfile).1 = none) :
    (runCodex w prompt (some p) model timeout).1.codexSpawn = none ∧
    (runCodex w prompt (some p) model timeout).1.spawns = [sqliteSpawn] ∧
    (runCodex w prompt (some p) model timeout).1.result =
      ⟨some 1, "", "Unknown profile \"" ++ p ++ "\"."⟩ ∧
    StrContains (handleToolCall "codex_run"
        { prompt := prompt, profile := some p, model := model,
          timeout := timeout, path := none, content := none } w).1.text
      "Unknown profile" := by
  have hrun : (runCodex w prompt (some p) model timeout).1 =
      ⟨[sqliteSpawn], none, ⟨some 1, "", "Unknown profile \"" ++ p ++ "\"."⟩⟩ := by
    unfold runCodex
    dsimp only
    rw [if_pos ⟨hmiss, by simp [jsTruthyOpt, hp]⟩]
    rfl
  refine ⟨by rw [hrun], by rw [hrun], by rw [hrun], ?_⟩
  have htext : (handleToolCall "codex_run"
      { prompt := prompt, profile := some p, model := model,
        timeout := timeout, path := none, content := none } w).1.text =
      (formatCombined (runCodex w prompt (some p) model timeout).1.result).text := by
    unfold handleToolCall
    rw [if_pos rfl]
  rw [htext, congrArg RunOutcome.result hrun]
  exact (formatCombined_unknown p).2

/-- Witness for the amended C2 at profile "nonexistent" with a failed DB. -/
theorem runCodex_unknown_profile_witness :
    (("nonexistent" : String) ≠ "" ∧
      (resolveProfile
        (loadProfilesAndSyncConfigs (DbOutcome.failed "boom") []).profiles
        (some "nonexistent")
        (loadProfilesAndSyncConfigs (DbOutcome.failed "boom") []).defaultProfile).1 =
        none) ∧
    ((runCodex ⟨"/wd", [], DbOutcome.failed "boom", ChildOutcome.errored "unused"⟩
        (some "go") (some "nonexistent") none none).1.codexSpawn = none ∧
      (runCodex ⟨"/wd", [], DbOutcome.failed "boom", ChildOutcome.errored "unused"⟩
        (some "go") (some "nonexistent") none none).1.spawns = [sqliteSpawn] ∧
      (runCodex ⟨"/wd", [], DbOutcome.failed "boom", ChildOutcome.errored "unused"⟩
        (some "go") (some "nonexistent") none none).1.result =
        ⟨some 1, "", "Unknown profile \"" ++ "nonexistent" ++ "\"."⟩ ∧
      StrContains (handleToolCall "codex_run"
          { prompt := some "go", profile := some "nonexistent", model := none,
            timeout := none, path := none, content := none }
          ⟨"/wd", [], DbOutcome.failed "boom",
            ChildOutcome.errored "unused"⟩).1.text "Unknown profile") :=
  ⟨⟨by decide, by decide⟩,
    runCodex_unknown_profile
      ⟨"/wd", [], DbOutcome.failed "boom", ChildOutcome.errored "unused"⟩
      (some "go") none none "nonexistent" (by decide) (by decide)⟩

/-- C2 (counterexample to the claim as stated): handling a `codex_run` call
with the unknown profile "nonexistent" does spawn a child process — the
sqlite3 registry query runs before the profile check — so the number of
`spawn` invocations during the handling is 1, not 0, even though the call
returns the "Unknown profile" failure text. -/
theorem runCodex_unknown_profile_spawns_query :
    (runCodex ⟨"/wd", [],
        DbOutcome.closed (some 0) "default|Codex Max|codex-max\n" "",
        ChildOutcome.errored "unused"⟩
      (some "do it") (some "nonexistent") none none).1.spawns = [sqliteSpawn] ∧
    (runCodex ⟨"/wd", [],
        DbOutcome.closed (some 0) "default|Codex Max|codex-max\n" "",
        ChildOutcome.errored "unused"⟩
      (some "do it") (some "nonexistent") none none).1.spawns.length = 1 ∧
    StrContains (handleToolCall "codex_run"
        { prompt := some "do it", profile := some "nonexistent", model := none,
          timeout := none, path := none, content := none }
        ⟨"/wd", [],
          DbOutcome.closed (some 0) "default|Codex Max|codex-max\n" "",
          ChildOutcome.errored "unused"⟩).1.text "Unknown profile" := by
  decide

theorem objSet_values {β : Type} (m : List (String × β)) (k : String) (v : β)
    (v' : β) (h : v' ∈ (objSet m k v).map Prod.snd) :
    v' ∈ m.map Prod.snd ∨ v' = v := by
  induction m with
  | nil =>
    right
    simpa [objSet] using h
  | cons p rest ih =>
    obtain ⟨a, b⟩ := p
    by_cases ha : a = k
    · rw [show objSet ((a, b) :: rest) k v = (k, v) :: rest by
        simp [objSet, ha]] at h
      simp only [List.map_cons, List.mem_cons] at h ⊢
      rcases h with h1 | h1
      · right; exact h1
      · left; right; exact h1
    · rw [show objSet ((a, b) :: rest) k v = (a, b) :: objSet rest k v by
        simp [objSet, ha]] at h
      simp only [List.map_cons, List.mem_cons] at h ⊢
      rcases h with h1 | h1
      · left; left; exact h1
      · rcases ih h1 with h2 | h2
        · left; right; exact h2
        · right; exact h2

theorem buildStep_values (m : List (String × ProfileInfo)) (row : ModelRow)
    (hm : ∀ v ∈ m.map Prod.snd, v.id ≠ "") :
    ∀ v ∈ (buildStep m row).map Prod.snd, v.id ≠ "" := by
  intro v hv
  unfold buildStep at hv
  cases hn : normalizeProfileId (some row.id) with
  | none =>
    rw [hn] at hv
    exact hm v hv
  | some id =>
    rw [hn] at hv
    dsimp only at hv
    by_cases hc : row.id = "kimi" ∨ id = "security"
    · rw [if_pos hc] at hv
      rcases objSet_values _ _ _ _ hv with h | h
      · exact hm v h
      · subst h
        exact (by decide : ("security" : String) ≠ "")
    · rw [if_neg hc] at hv
      rcases objSet_values _ _ _ _ hv with h | h
      · exact hm v h
      · subst h
        exact normalizeProfileId_ne_empty _ _ hn

theorem foldl_buildStep_values (rows : List ModelRow)
    (m : List (String × ProfileInfo)) (hm : ∀ v ∈ m.map Prod.snd, v.id ≠ "") :
    ∀ v ∈ (rows.foldl buildStep m).map Prod.snd, v.id ≠ "" := by
  induction rows generalizing m with
  | nil => exact hm
  | cons r rs ih => exact ih _ (buildStep_values m r hm)

theorem buildProfileMap_values (rows : List ModelRow) :
    ∀ v ∈ (buildProfileMap rows).1.map Prod.snd, v.id ≠ "" := by
  intro v hv
  unfold buildProfileMap at hv
  dsimp only at hv
  split at hv
  · rcases objSet_values _ _ _ _ hv with h2 | h2
    · exact foldl_buildStep_values rows [] (by simp) v h2
    · subst h2; decide
  · exact foldl_buildStep_values rows [] (by simp) v hv

theorem jsOrField_self (a : Option String) : jsOrField a a = a := by
  cases a with
  | none => rfl
  | some s =>
    by_cases h : s = ""
    · simp [jsOrField, h]
    · simp [jsOrField, h]

/-- The refresh's selected default (index.js:298/310): the id of the first
non-security entry when one exists, otherwise the registry's internal
selection. -/
theorem refresh_default_of (map : List (String × ProfileInfo))
    (dflt : Option String) (hvals : ∀ v ∈ map.map Prod.snd, v.id ≠ "") :
    jsOrField
      (jsOrField
        (((map.map Prod.snd).filter (fun p => p.id ≠ "security")).head?.map
          (fun p => p.id))
        (if (objGet map "security").isSome then none else dflt))
      dflt =
      (match (map.map Prod.snd).filter (fun p => p.id ≠ "security") with
       | p :: _ => some p.id
       | [] => dflt) := by
  cases hfl : (map.map Prod.snd).filter (fun p => p.id ≠ "security") with
  | nil =>
    simp only [List.head?_nil, Option.map_none']
    by_cases hsec : (objGet map "security").isSome
    · rw [if_pos hsec]
      show jsOrField (jsOrField none none) dflt = dflt
      simp [jsOrField]
    · rw [if_neg hsec]
      show jsOrField (jsOrField none dflt) dflt = dflt
      rw [show jsOrField none dflt = dflt from rfl]
      exact jsOrField_self dflt
  | cons p rest =>
    have hp : p.id ≠ "" := hvals p
      (List.mem_of_mem_filter (by rw [hfl]; exact List.mem_cons_self _ _))
    simp only [List.head?_cons, Option.map_some']
    show jsOrField
      (jsOrField (some p.id)
        (if (objGet map "security").isSome then none else dflt)) dflt =
      some p.id
    simp [jsOrField, hp]

/-- C4 (amended): for every row set obtained by a registry refresh, the
registry's internal selection (`buildProfileMap`) prefers the entry literally
named "default" when that key exists, else the first non-isolated key in the
mapping's insertion order, else any key, else none; but the refresh overrides
it — the default it actually selects, returns and writes as `default_profile`
is the id of the first non-isolated entry of the mapping whenever one exists,
even when an entry literally named "default" exists, and it falls back to the
internal rule only when the mapping has no non-isolated entry. -/
theorem registry_default_selection (rows : List ModelRow) (o : DbOutcome)
    (fs : FS) :
    ((buildProfileMap rows).2 =
      (if (objGet (buildProfileMap rows).1 "default").isSome then some "default"
       else
         match ((buildProfileMap rows).1.map Prod.fst).filter
             (fun k => k ≠ "security") with
         | k :: _ => some k
         | [] => ((buildProfileMap rows).1.map Prod.fst).head?)) ∧
    ((loadProfilesAndSyncConfigs o fs).defaultProfile =
      (match ((loadProfilesAndSyncConfigs o fs).profiles.map Prod.snd).filter
          (fun p => p.id ≠ "security") with
       | p :: _ => some p.id
       | [] =>
         if (objGet (loadProfilesAndSyncConfigs o fs).profiles "default").isSome
         then some "default"
         else
           match ((loadProfilesAndSyncConfigs o fs).profiles.map Prod.fst).filter
               (fun k => k ≠ "security") with
           | k :: _ => some k
           | [] => ((loadProfilesAndSyncConfigs o fs).profiles.map Prod.fst).head?)) := by
  refine ⟨buildProfileMap_default_rule rows, ?_⟩
  unfold loadProfilesAndSyncConfigs
  dsimp only
  rw [refresh_default_of _ _ (buildProfileMap_values _)]
  rw [buildProfileMap_default_rule]

set_option maxRecDepth 8192 in
/-- C4 (counterexample to the claim as stated): for the refreshed row set
`oss20b` then `default`, the mapping contains the entry literally named
"default", yet the refresh's selected default profile is "oss20b" — the first
non-isolated entry — not "default", and the rendered main configuration
declares `default_profile = "oss20b"`. -/
theorem refresh_default_ignores_default_entry :
    (objGet (loadProfilesAndSyncConfigs
        (DbOutcome.closed (some 0) "oss20b|OSS 20B|m1\ndefault|Codex Max|m2\n" "")
        []).profiles "default").isSome = true ∧
    (loadProfilesAndSyncConfigs
        (DbOutcome.closed (some 0) "oss20b|OSS 20B|m1\ndefault|Codex Max|m2\n" "")
        []).defaultProfile = some "oss20b" ∧
    ¬ ((loadProfilesAndSyncConfigs
        (DbOutcome.closed (some 0) "oss20b|OSS 20B|m1\ndefault|Codex Max|m2\n" "")
        []).defaultProfile = some "default") ∧
    StrContains ((loadProfilesAndSyncConfigs
        (DbOutcome.closed (some 0) "oss20b|OSS 20B|m1\ndefault|Codex Max|m2\n" "")
        []).rendered.headD ("", "")).2 "default_profile = \"oss20b\"" := by
  decide
